import Mathlib

/-!
Verification of the adaptive scheduling and spaced-repetition engine of the
study-content scheduler: the SM-2 review-interval algorithm, the weak-topic
detection, the rolling topic-accuracy recomputation, the daily-pack
composition and the daily-session orchestration.

The JavaScript source is shallowly embedded: JavaScript numbers are modelled
as rationals (every quantity the claims touch stays exactly representable,
and the SM-2 function rounds its ease factor to two decimals, so the rational
model and the IEEE-double source agree on all values appearing here);
database tables are lists of row structures; each SQL statement is embedded
as a pure function over those lists, with ORDER BY embedded as a stable
insertion sort on the ORDER BY key.
-/

namespace StudyScheduler

/-- JavaScript Math.round: round half toward positive infinity,
so Math.round x = floor (x + 1/2). -/
def jsRound (q : ℚ) : Int := ⌊q + 1/2⌋

/-- jsRound at a concrete value, from the two bracketing inequalities. -/
theorem jsRound_eq (q : ℚ) (n : Int) (h₁ : (n : ℚ) ≤ q + 1/2)
    (h₂ : q + 1/2 < (n : ℚ) + 1) : jsRound q = n := by
  unfold jsRound
  exact Int.floor_eq_iff.mpr ⟨h₁, by exact_mod_cast h₂⟩

/-- The new ease factor of a correct response in calculateSM2
(services/sm2Algorithm.js): easeFactor + (0.1 - (5 - easeRating) *
(0.08 + (5 - easeRating) * 0.02)), floored at 1.3. -/
def sm2NewEase (easeFactor : ℚ) (easeRating : Int) : ℚ :=
  let e0 : ℚ := easeFactor +
    (1/10 - (5 - (easeRating : ℚ)) * (8/100 + (5 - (easeRating : ℚ)) * (2/100)))
  if e0 < 13/10 then 13/10 else e0

/-- The two-decimal rounding applied to the ease factor on output:
Math.round(e * 100) / 100 in calculateSM2. -/
def roundEase (e : ℚ) : ℚ := (jsRound (e * 100) : ℚ) / 100

/-- Return record of calculateSM2 in services/sm2Algorithm.js:
{ difficulty, interval, easeFactor }. -/
structure SM2Values where
  difficulty : Int
  interval : Int
  easeFactor : ℚ
deriving Repr, DecidableEq

/-- Embedding of calculateSM2(difficulty, intervalDays, easeFactor, reviewCount,
isCorrect, easeRating) from services/sm2Algorithm.js.  On a correct response
the interval bootstraps 1, 6, then round(intervalDays * easeFactor); the ease
factor moves by sm2NewEase; difficulty drops by one when positive.  On an
incorrect response the interval resets to 1, difficulty rises (capped at 5)
and the ease factor is left alone.  Both branches return the ease factor
rounded to two decimals (the rounding sits on the shared return statement in
the source). -/
def calculateSM2 (difficulty : Int) (intervalDays : Int) (easeFactor : ℚ)
    (reviewCount : Int) (isCorrect : Bool) (easeRating : Int) : SM2Values :=
  if isCorrect then
    ⟨if 0 < difficulty then max 0 (difficulty - 1) else difficulty,
     if reviewCount = 0 then 1
       else if reviewCount = 1 then 6
       else jsRound ((intervalDays : ℚ) * easeFactor),
     roundEase (sm2NewEase easeFactor easeRating)⟩
  else
    ⟨min 5 (difficulty + 1), 1, roundEase easeFactor⟩

/-- The four SM-2 columns of a flashcards/mcqs row that updateSM2Algorithm
reads and writes (difficulty, interval_days, ease_factor, review_count);
due_at and last_reviewed are timestamps derived from the new interval and are
not needed by the claims about these columns. -/
structure ReviewItem where
  difficulty : Int
  intervalDays : Int
  easeFactor : ℚ
  reviewCount : Int
deriving Repr, DecidableEq

/-- One graded response applied to an item's SM-2 state, as persisted by
updateSM2Algorithm in services/sm2Algorithm.js: the three calculateSM2 outputs
are stored and review_count is incremented by the UPDATE statement. -/
def applySM2 (item : ReviewItem) (isCorrect : Bool) (easeRating : Int) : ReviewItem :=
  let v := calculateSM2 item.difficulty item.intervalDays item.easeFactor
    item.reviewCount isCorrect easeRating
  ⟨v.difficulty, v.interval, v.easeFactor, item.reviewCount + 1⟩

/-- A finite sequence of graded responses (isCorrect, easeRating) applied in
order to an item's SM-2 state. -/
def applyResponses (item : ReviewItem) (rs : List (Bool × Int)) : ReviewItem :=
  rs.foldl (fun it r => applySM2 it r.1 r.2) item

/-- Default SM-2 state of a freshly generated item (schema defaults:
difficulty 2, interval_days 1, ease_factor 2.5, review_count 0). -/
def defaultReviewItem : ReviewItem := ⟨2, 1, 5/2, 0⟩

/-- The 1.3 floor inside sm2NewEase is unconditional. -/
theorem sm2NewEase_floor (e : ℚ) (r : Int) : 13/10 ≤ sm2NewEase e r := by
  unfold sm2NewEase
  dsimp only
  split
  · exact le_refl _
  · next h => exact not_lt.mp h

/-- Two-decimal rounding keeps any rational at least 1.3 at least 1.3. -/
theorem roundEase_ge (e : ℚ) (h : 13/10 ≤ e) : 13/10 ≤ roundEase e := by
  have h130 : (130 : ℚ) ≤ e * 100 + 1/2 := by linarith
  have hfloor : (130 : Int) ≤ ⌊e * 100 + 1/2⌋ := by
    rw [Int.le_floor]; exact_mod_cast h130
  have hcast : (130 : ℚ) ≤ (jsRound (e * 100) : ℚ) := by
    unfold jsRound; exact_mod_cast hfloor
  unfold roundEase
  linarith

/-- One SM-2 step keeps the ease factor at least 1.3. -/
theorem applySM2_ease_floor (item : ReviewItem) (b : Bool) (r : Int)
    (h : 13/10 ≤ item.easeFactor) : 13/10 ≤ (applySM2 item b r).easeFactor := by
  unfold applySM2 calculateSM2
  cases b with
  | false => simpa using roundEase_ge item.easeFactor h
  | true => simpa using roundEase_ge _ (sm2NewEase_floor item.easeFactor r)

/-- C4: For every finite sequence of graded responses (any mix of
correct/incorrect, any easeRating values) applied via the SM-2 update starting
from a state with easeFactor at least 1.3, every output easeFactor is at least
1.3 (every intermediate output is the final output of a prefix, and the
sequence is universally quantified). -/
theorem sm2_ease_floor_invariant (item : ReviewItem) (rs : List (Bool × Int))
    (h : 13/10 ≤ item.easeFactor) :
    13/10 ≤ (applyResponses item rs).easeFactor := by
  induction rs generalizing item with
  | nil => simpa [applyResponses]
  | cons r rs ih =>
    have hstep := applySM2_ease_floor item r.1 r.2 h
    simpa [applyResponses] using ih (applySM2 item r.1 r.2) hstep

/-- Witness for C4 at the default state and a concrete two-response sequence. -/
theorem sm2_ease_floor_invariant_witness :
    13/10 ≤ defaultReviewItem.easeFactor ∧
      13/10 ≤ (applyResponses defaultReviewItem [(true, 3), (false, 2)]).easeFactor :=
  ⟨by norm_num [defaultReviewItem],
    sm2_ease_floor_invariant defaultReviewItem [(true, 3), (false, 2)]
      (by norm_num [defaultReviewItem])⟩

/-- First correct easeRating-3 response from the default state:
interval 1, ease 2.36. -/
theorem applySM2_default_step1 :
    applySM2 defaultReviewItem true 3 = ⟨1, 1, 59/25, 1⟩ := by
  have h1 : sm2NewEase (5/2) 3 = 59/25 := by norm_num [sm2NewEase]
  have h2 : jsRound ((59/25 : ℚ) * 100) = 236 :=
    jsRound_eq _ 236 (by norm_num) (by norm_num)
  simp only [applySM2, calculateSM2, defaultReviewItem, h1, roundEase, h2]
  norm_num

/-- Second correct easeRating-3 response: interval 6, ease 2.22. -/
theorem applySM2_default_step2 :
    applySM2 (⟨1, 1, 59/25, 1⟩ : ReviewItem) true 3 = ⟨0, 6, 111/50, 2⟩ := by
  have h1 : sm2NewEase (59/25) 3 = 111/50 := by norm_num [sm2NewEase]
  have h2 : jsRound ((111/50 : ℚ) * 100) = 222 :=
    jsRound_eq _ 222 (by norm_num) (by norm_num)
  simp only [applySM2, calculateSM2, h1, roundEase, h2]
  norm_num

/-- Third correct easeRating-3 response: interval round(6 * 2.22) = 13. -/
theorem applySM2_default_step3 :
    applySM2 (⟨0, 6, 111/50, 2⟩ : ReviewItem) true 3 = ⟨0, 13, 52/25, 3⟩ := by
  have h1 : sm2NewEase (111/50) 3 = 52/25 := by norm_num [sm2NewEase]
  have h2 : jsRound ((52/25 : ℚ) * 100) = 208 :=
    jsRound_eq _ 208 (by norm_num) (by norm_num)
  have h3 : jsRound (((6 : Int) : ℚ) * (111/50)) = 13 :=
    jsRound_eq _ 13 (by norm_num) (by norm_num)
  simp only [applySM2, calculateSM2, h1, roundEase, h2]
  norm_num [h3, jsRound_eq]
  exact jsRound_eq _ 13 (by norm_num) (by norm_num)

/-- C3: Starting from the default ReviewItem state (difficulty 2, intervalDays 1,
easeFactor 2.5, reviewCount 0), three consecutive SM-2 updates with
isCorrect = true and easeRating = 3 produce intervals 1, 6 and
round(6 * ease2) in that order, where ease2 is the ease factor after the
second update (concretely ease2 = 2.22 and the third interval is 13). -/
theorem sm2_bootstrap_sequence :
    (applySM2 defaultReviewItem true 3).intervalDays = 1 ∧
    (applySM2 (applySM2 defaultReviewItem true 3) true 3).intervalDays = 6 ∧
    (applySM2 (applySM2 (applySM2 defaultReviewItem true 3) true 3) true 3).intervalDays
      = jsRound (6 * (applySM2 (applySM2 defaultReviewItem true 3) true 3).easeFactor) ∧
    (applySM2 (applySM2 defaultReviewItem true 3) true 3).easeFactor = 222/100 ∧
    (applySM2 (applySM2 (applySM2 defaultReviewItem true 3) true 3) true 3).intervalDays
      = 13 := by
  have h13 : jsRound (6 * (111/50 : ℚ)) = 13 :=
    jsRound_eq _ 13 (by norm_num) (by norm_num)
  rw [applySM2_default_step1, applySM2_default_step2, applySM2_default_step3]
  refine ⟨rfl, rfl, ?_, by norm_num, rfl⟩
  simpa using h13.symm

/-- A topic_performance row (schema.sql): identity (userId, topic), lifetime
counters, rolling 7-day accuracy and its recomputation timestamp. -/
structure TopicPerformance where
  userId : Nat
  topic : String
  totalAttempts : Int
  correctAttempts : Int
  accuracy7day : ℚ
  lastCalculated : Int
deriving Repr, DecidableEq

/-- The ORDER BY key of getWeakTopics (services/sm2Algorithm.js):
accuracy_7day ASC, total_attempts DESC. -/
def weakBefore (a b : TopicPerformance) : Prop :=
  a.accuracy7day < b.accuracy7day ∨
    (a.accuracy7day = b.accuracy7day ∧ b.totalAttempts ≤ a.totalAttempts)

instance : DecidableRel weakBefore := fun a b => by
  unfold weakBefore; infer_instance

instance : IsTotal TopicPerformance weakBefore where
  total a b := by
    unfold weakBefore
    rcases lt_trichotomy a.accuracy7day b.accuracy7day with h | h | h
    · exact Or.inl (Or.inl h)
    · rcases le_total b.totalAttempts a.totalAttempts with h2 | h2
      · exact Or.inl (Or.inr ⟨h, h2⟩)
      · exact Or.inr (Or.inr ⟨h.symm, h2⟩)
    · exact Or.inr (Or.inl h)

instance : IsTrans TopicPerformance weakBefore where
  trans a b c hab hbc := by
    unfold weakBefore at *
    rcases hab with h1 | ⟨h1, h1'⟩ <;> rcases hbc with h2 | ⟨h2, h2'⟩
    · exact Or.inl (h1.trans h2)
    · exact Or.inl (h2 ▸ h1)
    · exact Or.inl (h1 ▸ h2)
    · exact Or.inr ⟨h1.trans h2, h2'.trans h1'⟩

/-- The WHERE clause of getWeakTopics: user_id = userId AND
total_attempts >= minAttempts AND accuracy_7day < 70.0. -/
def weakPred (userId : Nat) (minAttempts : Int) (tp : TopicPerformance) : Bool :=
  tp.userId == userId && decide (minAttempts ≤ tp.totalAttempts) &&
    decide (tp.accuracy7day < 70)

/-- Embedding of getWeakTopics(userId, limit, minAttempts) from
services/sm2Algorithm.js: SELECT rows of the user with total_attempts at
least minAttempts and accuracy_7day below 70.0, ORDER BY accuracy_7day ASC,
total_attempts DESC, LIMIT limit. -/
def getWeakTopics (rows : List TopicPerformance) (userId : Nat)
    (lim : Nat) (minAttempts : Int) : List TopicPerformance :=
  ((rows.filter (weakPred userId minAttempts)).insertionSort weakBefore).take lim

/-- Topic A of the weak-topic ordering example: accuracy 40, 10 attempts. -/
def topicA : TopicPerformance := ⟨1, "A", 10, 4, 40, 0⟩

/-- Topic B of the weak-topic ordering example: accuracy 40, 5 attempts. -/
def topicB : TopicPerformance := ⟨1, "B", 5, 2, 40, 0⟩

/-- Topic C of the weak-topic ordering example: accuracy 80, 10 attempts. -/
def topicC : TopicPerformance := ⟨1, "C", 10, 8, 80, 0⟩

/-- C7: getWeakTopics returns exactly the user's rows with totalAttempts at
least minAttempts and accuracy7day below 70.0 (a permutation of that filter,
before truncation), ordered by accuracy7day ascending with ties broken by
totalAttempts descending, truncated to the limit; and on the concrete rows
A(accuracy 40, attempts 10), B(accuracy 40, attempts 5),
C(accuracy 80, attempts 10) it returns [A, B] in that order. -/
theorem weak_topics_spec :
    (∀ (rows : List TopicPerformance) (u : Nat) (lim : Nat) (minA : Int),
      ∃ l : List TopicPerformance,
        l.Perm (rows.filter (weakPred u minA)) ∧
        List.Sorted weakBefore l ∧
        getWeakTopics rows u lim minA = l.take lim) ∧
    getWeakTopics [topicC, topicB, topicA] 1 10 3 = [topicA, topicB] := by
  constructor
  · intro rows u lim minA
    exact ⟨(rows.filter (weakPred u minA)).insertionSort weakBefore,
      List.perm_insertionSort _ _, List.sorted_insertionSort _ _, rfl⟩
  · norm_num [getWeakTopics, weakPred, topicA, topicB, topicC, List.filter,
      List.insertionSort, List.orderedInsert, weakBefore]

/-- Item type of a review item: row of flashcards or of mcqs. -/
inductive ItemType
  | flashcard
  | mcq
deriving Repr, DecidableEq

/-- A flashcards/mcqs row joined with its study_sets row, carrying the
columns the scheduler queries use: owner, SM-2 scheduling columns,
created_at and the study set's topics. -/
structure StudyItem where
  id : Nat
  userId : Nat
  itemType : ItemType
  dueAt : Int
  difficulty : Int
  reviewCount : Int
  createdAt : Int
  topics : List String
deriving Repr, DecidableEq

/-- The ORDER BY key of getItemsDue (services/sm2Algorithm.js):
due_at ASC, difficulty DESC. -/
def dueBefore (a b : StudyItem) : Prop :=
  a.dueAt < b.dueAt ∨ (a.dueAt = b.dueAt ∧ b.difficulty ≤ a.difficulty)

instance : DecidableRel dueBefore := fun a b => by
  unfold dueBefore; infer_instance

instance : IsTotal StudyItem dueBefore where
  total a b := by
    unfold dueBefore
    rcases lt_trichotomy a.dueAt b.dueAt with h | h | h
    · exact Or.inl (Or.inl h)
    · rcases le_total b.difficulty a.difficulty with h2 | h2
      · exact Or.inl (Or.inr ⟨h, h2⟩)
      · exact Or.inr (Or.inr ⟨h.symm, h2⟩)
    · exact Or.inr (Or.inl h)

instance : IsTrans StudyItem dueBefore where
  trans a b c hab hbc := by
    unfold dueBefore at *
    rcases hab with h1 | ⟨h1, h1'⟩ <;> rcases hbc with h2 | ⟨h2, h2'⟩
    · exact Or.inl (h1.trans h2)
    · exact Or.inl (h2 ▸ h1)
    · exact Or.inl (h1 ▸ h2)
    · exact Or.inr ⟨h1.trans h2, h2'.trans h1'⟩

/-- Embedding of getItemsDue(userId, 'both', limit) from
services/sm2Algorithm.js: all of the user's flashcards and mcqs with
due_at <= now, ORDER BY due_at ASC, difficulty DESC, LIMIT limit. -/
def getItemsDue (items : List StudyItem) (userId : Nat) (now : Int)
    (lim : Nat) : List StudyItem :=
  ((items.filter (fun i => i.userId == userId && decide (i.dueAt ≤ now))).insertionSort
    dueBefore).take lim

/-- The due flashcards selected by generateDailyPack (services/scheduler.js):
dueItems.filter(item_type == 'flashcard').slice(0, 12), where dueItems is
getItemsDue(userId, 'both', 20). -/
def dueFlashcards (items : List StudyItem) (userId : Nat) (now : Int) :
    List StudyItem :=
  ((getItemsDue items userId now 20).filter
    (fun i => i.itemType == ItemType.flashcard)).take 12

/-- The due MCQs selected by generateDailyPack (services/scheduler.js):
dueItems.filter(item_type == 'mcq').slice(0, 8). -/
def dueMCQs (items : List StudyItem) (userId : Nat) (now : Int) :
    List StudyItem :=
  ((getItemsDue items userId now 20).filter
    (fun i => i.itemType == ItemType.mcq)).take 8

/-- 15 due flashcards (due at time 0) and 10 due MCQs (due at time 1),
all owned by user 1. -/
def exDueItems : List StudyItem :=
  (List.range 15).map (fun n => ⟨n, 1, ItemType.flashcard, 0, 2, 1, 0, []⟩) ++
    (List.range 10).map (fun n => ⟨100 + n, 1, ItemType.mcq, 1, 2, 1, 0, []⟩)

/-- Counterexample to C1: with 15 due flashcards and 10 due MCQs, an
assignment of due dates that puts every flashcard earlier than every MCQ
makes generateDailyPack select only 5 due MCQs, not 8: getItemsDue fetches
only the 20 earliest-due items before the per-type caps are applied. -/
theorem due_bucket_mcq_undershoot :
    (exDueItems.filter
      (fun i => i.itemType == ItemType.flashcard && decide (i.dueAt ≤ 2))).length = 15 ∧
    (exDueItems.filter
      (fun i => i.itemType == ItemType.mcq && decide (i.dueAt ≤ 2))).length = 10 ∧
    (dueFlashcards exDueItems 1 2).length = 12 ∧
    (dueMCQs exDueItems 1 2).length = 5 ∧
    ¬ (dueMCQs exDueItems 1 2).length = 8 := by
  decide

/-- The due-bucket ORDER BY key implies due dates are nondecreasing. -/
theorem dueBefore_le {a b : StudyItem} (h : dueBefore a b) : a.dueAt ≤ b.dueAt := by
  rcases h with h | ⟨h, _⟩
  · exact le_of_lt h
  · exact le_of_eq h

/-- getItemsDue returns rows of the requested user that are due. -/
theorem mem_getItemsDue {items : List StudyItem} {u : Nat} {now : Int}
    {lim : Nat} {i : StudyItem} (h : i ∈ getItemsDue items u now lim) :
    i.userId = u ∧ i.dueAt ≤ now ∧ i ∈ items := by
  unfold getItemsDue at h
  have h1 := List.mem_of_mem_take h
  rw [List.mem_insertionSort] at h1
  have h2 := List.mem_filter.mp h1
  have h3 := h2.2
  simp only [Bool.and_eq_true, beq_iff_eq, decide_eq_true_eq] at h3
  exact ⟨h3.1, h3.2, h2.1⟩

/-- getItemsDue is sorted by the due_at ASC, difficulty DESC key. -/
theorem sorted_getItemsDue (items : List StudyItem) (u : Nat) (now : Int)
    (lim : Nat) : List.Sorted dueBefore (getItemsDue items u now lim) := by
  unfold getItemsDue
  exact List.Pairwise.sublist (List.take_sublist _ _)
    (List.sorted_insertionSort dueBefore _)

/-- A per-type slice of the due bucket keeps items of that type, of that
user, due by now, drawn from the 20 earliest-due items. -/
theorem mem_due_selection {items : List StudyItem} {u : Nat} {now : Int}
    {ty : ItemType} {n : Nat} {i : StudyItem}
    (h : i ∈ ((getItemsDue items u now 20).filter
      (fun j => j.itemType == ty)).take n) :
    i.itemType = ty ∧ i.userId = u ∧ i.dueAt ≤ now ∧
      i ∈ getItemsDue items u now 20 := by
  have h1 := List.mem_of_mem_take h
  have h2 := List.mem_filter.mp h1
  have h3 : i.itemType = ty := by
    have := h2.2; simpa [beq_iff_eq] using this
  have h4 := mem_getItemsDue h2.1
  exact ⟨h3, h4.1, h4.2.1, h2.1⟩

/-- A per-type slice of the due bucket is ordered by due date ascending. -/
theorem sorted_due_selection (items : List StudyItem) (u : Nat) (now : Int)
    (ty : ItemType) (n : Nat) :
    List.Sorted (fun a b : StudyItem => a.dueAt ≤ b.dueAt)
      (((getItemsDue items u now 20).filter
        (fun j => j.itemType == ty)).take n) := by
  have hs := sorted_getItemsDue items u now 20
  have hsub : List.Sublist (((getItemsDue items u now 20).filter
      (fun j => j.itemType == ty)).take n) (getItemsDue items u now 20) :=
    (List.take_sublist _ _).trans (List.filter_sublist _)
  exact (List.Pairwise.sublist hsub hs).imp dueBefore_le

/-- Every study item is a flashcard or an MCQ, so the two per-type filters
split a list's length. -/
theorem length_filter_flashcard_add_mcq (l : List StudyItem) :
    (l.filter (fun i => i.itemType == ItemType.flashcard)).length +
      (l.filter (fun i => i.itemType == ItemType.mcq)).length = l.length := by
  have hff : (ItemType.flashcard == ItemType.flashcard) = true := by decide
  have hfm : (ItemType.flashcard == ItemType.mcq) = false := by decide
  have hmf : (ItemType.mcq == ItemType.flashcard) = false := by decide
  have hmm : (ItemType.mcq == ItemType.mcq) = true := by decide
  induction l with
  | nil => rfl
  | cons a l ih =>
    cases ha : a.itemType with
    | flashcard =>
      simp [List.filter_cons, ha, hff, hfm]
      omega
    | mcq =>
      simp [List.filter_cons, ha, hmf, hmm]
      omega

/-- The fetched due bucket holds at most 20 items (LIMIT 20). -/
theorem length_getItemsDue_le (items : List StudyItem) (u : Nat) (now : Int) :
    (getItemsDue items u now 20).length ≤ 20 := by
  unfold getItemsDue
  exact List.length_take_le _ _

/-- C1 amended: from 15 due flashcards and 10 due MCQs, generateDailyPack
selects at most 12 due flashcards and at most 8 due MCQs, each drawn from the
20 earliest-due items of the user (getItemsDue with limit 20, ordered by
due_at ASC, difficulty DESC), and each selection is ordered by due date
ascending; exactly 12 flashcards and exactly 8 MCQs are selected if and only
if the fetched 20 earliest-due items comprise exactly 12 flashcards and
exactly 8 MCQs (the last conjunct: since every item is one of the two types
and at most 20 are fetched, the two per-type counts of the fetch must be
exactly 12 and 8 for both caps to be met). -/
theorem due_bucket_amended :
    ∀ (items : List StudyItem) (u : Nat) (now : Int),
      (dueFlashcards items u now).length ≤ 12 ∧
      (dueMCQs items u now).length ≤ 8 ∧
      (∀ i ∈ dueFlashcards items u now,
        i.itemType = ItemType.flashcard ∧ i.userId = u ∧ i.dueAt ≤ now ∧
          i ∈ getItemsDue items u now 20) ∧
      (∀ i ∈ dueMCQs items u now,
        i.itemType = ItemType.mcq ∧ i.userId = u ∧ i.dueAt ≤ now ∧
          i ∈ getItemsDue items u now 20) ∧
      List.Sorted (fun a b : StudyItem => a.dueAt ≤ b.dueAt)
        (dueFlashcards items u now) ∧
      List.Sorted (fun a b : StudyItem => a.dueAt ≤ b.dueAt)
        (dueMCQs items u now) ∧
      (((dueFlashcards items u now).length = 12 ∧
          (dueMCQs items u now).length = 8) ↔
        (((getItemsDue items u now 20).filter
            (fun i => i.itemType == ItemType.flashcard)).length = 12 ∧
          ((getItemsDue items u now 20).filter
            (fun i => i.itemType == ItemType.mcq)).length = 8)) := by
  intro items u now
  refine ⟨List.length_take_le _ _, List.length_take_le _ _,
    fun i hi => mem_due_selection hi, fun i hi => mem_due_selection hi,
    sorted_due_selection items u now ItemType.flashcard 12,
    sorted_due_selection items u now ItemType.mcq 8, ?_⟩
  have hD := length_getItemsDue_le items u now
  have hsum := length_filter_flashcard_add_mcq (getItemsDue items u now 20)
  unfold dueFlashcards dueMCQs
  rw [List.length_take, List.length_take]
  omega

/-- A study_sessions row, with the columns generateDailyPack touches.
Time is modelled at calendar-day granularity: startedDate stands for
DATE(started_at), and the same day value is used as the NOW() of the run. -/
structure SessionRow where
  id : Nat
  userId : Nat
  sessionType : String
  startedDate : Int
  status : String
deriving Repr, DecidableEq

/-- A notification payload handed to sendNotification (only the fields the
claims need: recipient and type). -/
structure NotificationMsg where
  userId : Nat
  ntype : String
deriving Repr, DecidableEq

/-- The database state generateDailyPack reads and writes: item rows,
topic_performance rows, study_sessions rows, the notification sink, and the
id the next INSERT INTO study_sessions would allocate. -/
structure SchedDB where
  items : List StudyItem
  perf : List TopicPerformance
  sessions : List SessionRow
  notifications : List NotificationMsg
  nextSessionId : Nat
deriving Repr, DecidableEq

/-- The ORDER BY key difficulty DESC of the weak-topic bucket queries.
ORDER BY difficulty DESC, RANDOM() in the source: the random tie-break is
modelled as the incoming row order (stable insertion sort). -/
def harderBefore (a b : StudyItem) : Prop := b.difficulty ≤ a.difficulty

instance : DecidableRel harderBefore := fun a b => by
  unfold harderBefore; infer_instance

/-- The ORDER BY key created_at DESC of the new-item bucket queries, with the
RANDOM() tie-break modelled as the incoming row order. -/
def newerBefore (a b : StudyItem) : Prop := b.createdAt ≤ a.createdAt

instance : DecidableRel newerBefore := fun a b => by
  unfold newerBefore; infer_instance

/-- Weak-topic bucket of generateDailyPack (services/scheduler.js): weak
topics via getWeakTopics(userId, 5) (minAttempts defaults to 3); if any, up
to 5 flashcards and 3 MCQs of the user whose study-set topics overlap the
weak topic names (s.topics && $2), ordered by difficulty DESC. -/
def weakTopicItems (db : SchedDB) (u : Nat) : List StudyItem :=
  let weakTopics := getWeakTopics db.perf u 5 3
  if weakTopics.isEmpty then []
  else
    let names := weakTopics.map (fun tp => tp.topic)
    ((db.items.filter (fun i => i.userId == u &&
        i.itemType == ItemType.flashcard &&
        i.topics.any (fun t => names.contains t))).insertionSort
      harderBefore).take 5 ++
    ((db.items.filter (fun i => i.userId == u &&
        i.itemType == ItemType.mcq &&
        i.topics.any (fun t => names.contains t))).insertionSort
      harderBefore).take 3

/-- New-item bucket of generateDailyPack: up to 3 flashcards and 2 MCQs of
the user with review_count = 0, ordered by created_at DESC. -/
def newItems (db : SchedDB) (u : Nat) : List StudyItem :=
  ((db.items.filter (fun i => i.userId == u &&
      i.itemType == ItemType.flashcard && i.reviewCount == 0)).insertionSort
    newerBefore).take 3 ++
  ((db.items.filter (fun i => i.userId == u &&
      i.itemType == ItemType.mcq && i.reviewCount == 0)).insertionSort
    newerBefore).take 2

/-- The duplicate removal of generateDailyPack: reduce over the concatenated
buckets, keeping an item only if no earlier kept item has the same
(id, item_type). -/
def dedupeItems (l : List StudyItem) : List StudyItem :=
  l.foldl (fun acc item =>
    if acc.any (fun e => e.id == item.id && e.itemType == item.itemType)
    then acc else acc ++ [item]) []

/-- The full pack composition of generateDailyPack: due flashcards, due MCQs,
weak-topic items and new items concatenated in that order, deduplicated, and
truncated to 25. -/
def composePack (db : SchedDB) (u : Nat) (now : Int) : List StudyItem :=
  (dedupeItems (dueFlashcards db.items u now ++ dueMCQs db.items u now ++
    weakTopicItems db u ++ newItems db u)).take 25

/-- The idempotency-guard predicate without the status conjunct: a daily
session of the user started today. -/
def dailySessionToday (u : Nat) (today : Int) (s : SessionRow) : Bool :=
  s.userId == u && s.sessionType == "daily" && s.startedDate == today

/-- The guard query of generateDailyPack: daily sessions of the user started
today whose status is not 'completed'. -/
def blockingSessions (db : SchedDB) (u : Nat) (today : Int) : List SessionRow :=
  db.sessions.filter (fun s => dailySessionToday u today s &&
    s.status != "completed")

/-- Number of daily study_sessions of the user started today. -/
def dailyCount (db : SchedDB) (u : Nat) (today : Int) : Nat :=
  (db.sessions.filter (dailySessionToday u today)).length

/-- The three return shapes of generateDailyPack: the bare
'Daily pack already generated today' message (which carries no session
reference), the bare 'No study items available today' message, and the
created-session result with its session id and item count. -/
inductive PackResult
  | alreadyGenerated
  | noItems
  | created (sessionId : Nat) (totalItems : Nat)
deriving Repr, DecidableEq

/-- Embedding of generateDailyPack(userId, forceGeneration) from
services/scheduler.js: unless forced, refuse when a non-completed daily
session exists for the user today; otherwise compose the pack; on an empty
pack return the no-items message without creating a session or notifying;
otherwise insert a study_sessions row (status defaults to 'active' per
schema.sql) and send the daily_pack_ready notification. -/
def generateDailyPack (db : SchedDB) (u : Nat) (force : Bool) (today : Int) :
    PackResult × SchedDB :=
  if !force && 0 < (blockingSessions db u today).length then
    (PackResult.alreadyGenerated, db)
  else
    let finalItems := composePack db u today
    if finalItems.length = 0 then (PackResult.noItems, db)
    else
      (PackResult.created db.nextSessionId finalItems.length,
        { db with
          sessions := db.sessions ++ [⟨db.nextSessionId, u, "daily", today, "active"⟩],
          notifications := db.notifications ++ [⟨u, "daily_pack_ready"⟩],
          nextSessionId := db.nextSessionId + 1 })

/-- When no daily session exists for the user today, none blocks generation. -/
theorem blockingSessions_eq_nil_of_dailyCount {db : SchedDB} {u : Nat}
    {today : Int} (h : dailyCount db u today = 0) :
    blockingSessions db u today = [] := by
  unfold dailyCount at h
  unfold blockingSessions
  rw [List.length_eq_zero] at h
  rw [List.filter_eq_nil_iff] at h ⊢
  intro s hs hpred
  refine h s hs ?_
  simp only [Bool.and_eq_true] at hpred
  exact hpred.1

/-- Evaluation of generateDailyPack when nothing blocks and the composed pack
is non-empty: a study_sessions row and a notification are appended and the
created-session result is returned. -/
theorem generateDailyPack_creates (db : SchedDB) (u : Nat) (today : Int)
    (hblock : blockingSessions db u today = [])
    (hitems : composePack db u today ≠ []) :
    generateDailyPack db u false today
      = (PackResult.created db.nextSessionId (composePack db u today).length,
          { db with
            sessions := db.sessions ++
              [⟨db.nextSessionId, u, "daily", today, "active"⟩],
            notifications := db.notifications ++ [⟨u, "daily_pack_ready"⟩],
            nextSessionId := db.nextSessionId + 1 }) := by
  have hlen : ¬ (composePack db u today).length = 0 := by
    simpa [List.length_eq_zero] using hitems
  unfold generateDailyPack
  rw [hblock]
  simp [hlen]

/-- The freshly inserted session is a daily session of the user today. -/
theorem dailySessionToday_new (u : Nat) (today : Int) (n : Nat) :
    dailySessionToday u today (⟨n, u, "daily", today, "active"⟩ : SessionRow)
      = true := by
  simp [dailySessionToday]

/-- C5 amended: calling generateDailyPack twice on the same calendar date
without force, starting with no daily session for that user and date and a
non-empty composed pack, creates exactly one daily StudySession; the second
call is a no-op that returns the bare 'already generated' message, leaving
the database unchanged (it does not return the existing session's
reference — see the counterexample theorem). -/
theorem daily_generation_idempotent_amended (db : SchedDB) (u : Nat)
    (today : Int) (hnone : dailyCount db u today = 0)
    (hitems : composePack db u today ≠ []) :
    dailyCount (generateDailyPack db u false today).2 u today = 1 ∧
    generateDailyPack (generateDailyPack db u false today).2 u false today
      = (PackResult.alreadyGenerated, (generateDailyPack db u false today).2) := by
  have hblock := blockingSessions_eq_nil_of_dailyCount hnone
  have h1 := generateDailyPack_creates db u today hblock hitems
  have hpred := dailySessionToday_new u today db.nextSessionId
  unfold dailyCount at hnone
  constructor
  · rw [h1]
    unfold dailyCount
    simp [List.filter_append, hpred, hnone]
  · rw [h1]
    have hb : 0 < (blockingSessions
        { db with
          sessions := db.sessions ++
            [⟨db.nextSessionId, u, "daily", today, "active"⟩],
          notifications := db.notifications ++ [⟨u, "daily_pack_ready"⟩],
          nextSessionId := db.nextSessionId + 1 } u today).length := by
      unfold blockingSessions at hblock ⊢
      simp [List.filter_append, hpred, hblock]
    unfold generateDailyPack
    simp [hb]

/-- A user-1 flashcard due at time 0 with one prior review. -/
def exSchedItem : StudyItem := ⟨0, 1, ItemType.flashcard, 0, 2, 1, 0, []⟩

/-- A database with one due item and no sessions. -/
def exSchedDB : SchedDB := ⟨[exSchedItem], [], [], [], 0⟩

/-- Counterexample to C5 as stated: after the first call creates session 0,
the second same-day call without force returns the bare
'Daily pack already generated today' message (the alreadyGenerated result,
which carries no session reference), not the existing session reference. -/
theorem second_call_returns_message_only :
    (generateDailyPack exSchedDB 1 false 0).1 = PackResult.created 0 1 ∧
    generateDailyPack (generateDailyPack exSchedDB 1 false 0).2 1 false 0
      = (PackResult.alreadyGenerated, (generateDailyPack exSchedDB 1 false 0).2) :=
  ⟨rfl, rfl⟩

/-- Witness for the amended C5 at the concrete one-item database. -/
theorem daily_generation_idempotent_amended_witness :
    dailyCount exSchedDB 1 0 = 0 ∧ composePack exSchedDB 1 0 ≠ [] ∧
    (dailyCount (generateDailyPack exSchedDB 1 false 0).2 1 0 = 1 ∧
      generateDailyPack (generateDailyPack exSchedDB 1 false 0).2 1 false 0
        = (PackResult.alreadyGenerated, (generateDailyPack exSchedDB 1 false 0).2)) :=
  ⟨rfl, by decide,
    daily_generation_idempotent_amended exSchedDB 1 0 rfl (by decide)⟩

/-- C9: when the composed pack is empty (and the idempotency guard does not
fire), generateDailyPack creates no StudySession and sends no notification:
the database is returned unchanged with the no-items outcome, which is a
returned message, not a thrown error. -/
theorem empty_pack_no_session_no_notification (db : SchedDB) (u : Nat)
    (force : Bool) (now : Int)
    (hblock : blockingSessions db u now = [])
    (hempty : composePack db u now = []) :
    generateDailyPack db u force now = (PackResult.noItems, db) := by
  unfold generateDailyPack
  rw [hblock, hempty]
  simp

/-- Witness for C9 at the empty database. -/
theorem empty_pack_no_session_no_notification_witness :
    blockingSessions ⟨[], [], [], [], 0⟩ 1 0 = [] ∧
    composePack ⟨[], [], [], [], 0⟩ 1 0 = [] ∧
    generateDailyPack ⟨[], [], [], [], 0⟩ 1 false 0
      = (PackResult.noItems, ⟨[], [], [], [], 0⟩) :=
  ⟨rfl, rfl, empty_pack_no_session_no_notification ⟨[], [], [], [], 0⟩ 1 false 0 rfl rfl⟩

/-- C10: the no-force guard only counts daily sessions of the day whose
status differs from 'completed'; if the user's daily sessions today are all
completed (here: exactly one) and the pack is non-empty, a second call
without force creates a second daily StudySession for the same user and
calendar day. -/
theorem completed_session_allows_regeneration (db : SchedDB) (u : Nat)
    (today : Int) (hblock : blockingSessions db u today = [])
    (hone : dailyCount db u today = 1)
    (hitems : composePack db u today ≠ []) :
    (generateDailyPack db u false today).1
      = PackResult.created db.nextSessionId (composePack db u today).length ∧
    dailyCount (generateDailyPack db u false today).2 u today = 2 := by
  have h1 := generateDailyPack_creates db u today hblock hitems
  have hpred := dailySessionToday_new u today db.nextSessionId
  unfold dailyCount at hone
  constructor
  · rw [h1]
  · rw [h1]
    unfold dailyCount
    simp [List.filter_append, hpred, hone]

/-- A database whose only daily session today is already completed. -/
def exSchedDB2 : SchedDB :=
  ⟨[exSchedItem], [], [⟨0, 1, "daily", 0, "completed"⟩], [], 1⟩

/-- Witness for C10 at a database with one completed daily session today. -/
theorem completed_session_allows_regeneration_witness :
    blockingSessions exSchedDB2 1 0 = [] ∧ dailyCount exSchedDB2 1 0 = 1 ∧
    composePack exSchedDB2 1 0 ≠ [] ∧
    ((generateDailyPack exSchedDB2 1 false 0).1
        = PackResult.created exSchedDB2.nextSessionId
            (composePack exSchedDB2 1 0).length ∧
      dailyCount (generateDailyPack exSchedDB2 1 false 0).2 1 0 = 2) :=
  ⟨rfl, rfl, by decide,
    completed_session_allows_regeneration exSchedDB2 1 0 rfl rfl (by decide)⟩

/-- A flashcards/mcqs row as touched by the response route: id, owner (via
its study set) and SM-2 state. -/
structure ItemRow where
  id : Nat
  userId : Nat
  itemType : ItemType
  state : ReviewItem
deriving Repr, DecidableEq

/-- A user_responses row as INSERTed by the response route. -/
structure ResponseRow where
  userId : Nat
  itemId : Nat
  itemType : ItemType
  isCorrect : Bool
  easeRating : Option Int
deriving Repr, DecidableEq

/-- The tables the response route touches. -/
structure RespDB where
  items : List ItemRow
  responses : List ResponseRow
deriving Repr, DecidableEq

/-- HTTP outcomes of the response route: 404 (item not found or access
denied), 500 (caught error), 200. -/
inductive RespResult
  | notFound
  | serverError
  | ok
deriving Repr, DecidableEq

/-- JavaScript (easeRating || 3): any falsy value (absent, null, 0) becomes
3; every other integer, in range or not, passes through. -/
def jsOr3 (r : Option Int) : Int :=
  match r with
  | none => 3
  | some v => if v = 0 then 3 else v

/-- Embedding of the response route POST /response (routes/studyPack.js)
composed with updateSM2Algorithm (services/sm2Algorithm.js).  The route
checks ownership, INSERTs the user_responses row, then runs the SM-2 update;
the two statements run as separate awaited queries with no surrounding
transaction, so the INSERT is already committed when the update runs.
sm2UpdateFails injects a store-boundary failure of the final UPDATE query
(the try/catch then answers 500 with the INSERT kept).  Required-field
validation of itemId/itemType/isCorrect (the 400 branch) is subsumed by the
typed parameters; the source has no easeRating validation at all. -/
def postResponse (db : RespDB) (userId itemId : Nat) (ty : ItemType)
    (isCorrect : Bool) (easeRating : Option Int) (sm2UpdateFails : Bool) :
    RespResult × RespDB :=
  if !(db.items.any (fun i => i.id == itemId && i.itemType == ty &&
      i.userId == userId)) then
    (RespResult.notFound, db)
  else
    let db1 : RespDB :=
      ⟨db.items, db.responses ++ [⟨userId, itemId, ty, isCorrect, easeRating⟩]⟩
    match db1.items.find? (fun i => i.id == itemId && i.itemType == ty) with
    | none => (RespResult.serverError, db1)
    | some row =>
      if sm2UpdateFails then (RespResult.serverError, db1)
      else
        (RespResult.ok,
          ⟨db1.items.map (fun i =>
              if i.id == itemId && i.itemType == ty then
                ⟨i.id, i.userId, i.itemType,
                  applySM2 row.state isCorrect (jsOr3 easeRating)⟩
              else i),
            db1.responses⟩)

/-- A database with one user-1 flashcard (id 7) at the default SM-2 state
and no recorded responses. -/
def exRespDB : RespDB := ⟨[⟨7, 1, ItemType.flashcard, defaultReviewItem⟩], []⟩

/-- C2 (code bug): a graded response whose SM-2 persistence fails still
keeps the already-committed user_responses INSERT: the event is recorded
while the item state is unchanged — exactly the partial commit the claim
rules out.  The caller does get a 500, but the INSERT and the SM-2 UPDATE
are separate non-transactional statements. -/
theorem response_partial_commit_on_sm2_failure :
    postResponse exRespDB 1 7 ItemType.flashcard true (some 3) true
      = (RespResult.serverError,
          ⟨[⟨7, 1, ItemType.flashcard, defaultReviewItem⟩],
            [⟨1, 7, ItemType.flashcard, true, some 3⟩]⟩) ∧
    ([(⟨1, 7, ItemType.flashcard, true, some 3⟩ : ResponseRow)] : List ResponseRow)
      ≠ exRespDB.responses :=
  ⟨rfl, by decide⟩

/-- A correct response with out-of-range easeRating 7 from the default
state: the ease delta is +0.18, giving ease 2.68. -/
theorem applySM2_default_rating7 :
    applySM2 defaultReviewItem true 7 = ⟨1, 1, 67/25, 1⟩ := by
  have h1 : sm2NewEase (5/2) 7 = 67/25 := by norm_num [sm2NewEase]
  have h2 : jsRound ((67/25 : ℚ) * 100) = 268 :=
    jsRound_eq _ 268 (by norm_num) (by norm_num)
  simp only [applySM2, calculateSM2, defaultReviewItem, h1, roundEase, h2]
  norm_num

/-- C6 (code bug): a graded response with easeRating 7 (outside [1,4]) is
not rejected: the route records the response row with rating 7 and the SM-2
update runs with easeRating 7 (jsOr3 only replaces falsy values), mutating
the item's state to ease 2.68 — no ValidationError and no pre-mutation
rejection exist in the source. -/
theorem out_of_range_ease_rating_accepted :
    jsOr3 (some 7) = 7 ∧
    postResponse exRespDB 1 7 ItemType.flashcard true (some 7) false
      = (RespResult.ok,
          ⟨[⟨7, 1, ItemType.flashcard, ⟨1, 1, 67/25, 1⟩⟩],
            [⟨1, 7, ItemType.flashcard, true, some 7⟩]⟩) ∧
    (⟨1, 1, (67/25 : ℚ), 1⟩ : ReviewItem) ≠ defaultReviewItem := by
  refine ⟨rfl, ?_, ?_⟩
  · have h7 : jsOr3 (some 7) = 7 := rfl
    unfold postResponse exRespDB
    simp [List.find?, h7, applySM2_default_rating7]
  · simp only [defaultReviewItem, ne_eq, ReviewItem.mk.injEq, not_and]
    intro h
    norm_num at h

/-- A flashcards/mcqs row joined to its study_sets topics, as the rolling
accuracy query reads it. -/
structure TopicItemRow where
  id : Nat
  itemType : ItemType
  topics : List String
deriving Repr, DecidableEq

/-- A user_responses row as the rolling accuracy query reads it. -/
structure RespEvent where
  userId : Nat
  itemId : Nat
  itemType : ItemType
  isCorrect : Bool
  createdAt : Int
deriving Repr, DecidableEq

/-- The tables recalculateRollingAccuracy reads and writes. -/
structure PerfDB where
  items : List TopicItemRow
  responses : List RespEvent
  perf : List TopicPerformance
deriving Repr, DecidableEq

/-- Topic set of an item, via the JOIN to study_sets (an unmatched JOIN row
contributes nothing). -/
def topicsOf (items : List TopicItemRow) (itemId : Nat) (ty : ItemType) :
    List String :=
  match items.find? (fun i => i.id == itemId && i.itemType == ty) with
  | some i => i.topics
  | none => []

/-- The inner SELECT of the accuracy query: one (topic, response_correct)
observation per topic of each of the user's responses of the trailing seven
days (created_at > NOW() - INTERVAL '7 days'); an item tagged with several
topics contributes one observation per topic. -/
def windowObservations (db : PerfDB) (userId : Nat) (now : Int) :
    List (String × Bool) :=
  (db.responses.filter (fun r => r.userId == userId &&
      decide (now - 7 < r.createdAt))).flatMap
    (fun r => (topicsOf db.items r.itemId r.itemType).map
      (fun t => (t, r.isCorrect)))

/-- GROUP BY key enumeration: the distinct topics in first-appearance order. -/
def distinctKeys (l : List String) : List String :=
  l.foldl (fun acc t => if acc.contains t then acc else acc ++ [t]) []

/-- The GROUP BY topic aggregation of the accuracy query followed by the
per-row accuracy formula of the source: recent_attempts, recent_correct and
accuracy = recent_correct / recent_attempts * 100 (0 when no attempts). -/
def computedAccuracies (db : PerfDB) (userId : Nat) (now : Int) :
    List (String × ℚ) :=
  let obs := windowObservations db userId now
  (distinctKeys (obs.map Prod.fst)).map (fun t =>
    let tobs := obs.filter (fun o => o.1 == t)
    let correct := (tobs.filter (fun o => o.2)).length
    (t, if 0 < tobs.length then ((correct : ℚ) / tobs.length) * 100 else 0))

/-- Embedding of recalculateRollingAccuracy(userId, topics) from
services/sm2Algorithm.js.  The source builds a whereClause and params with
topic = ANY($2) from the topics argument, but the accuracy query is executed
with only [userId] and a hard-coded WHERE user_id = $1 — the topic filter is
dead code, so the computation ranges over all of the user's topics no matter
the argument; each computed row then UPDATEs topic_performance SET
accuracy_7day, last_calculated WHERE user_id AND topic. -/
def recalculateRollingAccuracy (db : PerfDB) (userId : Nat)
    (topics : Option (List String)) (now : Int) : PerfDB :=
  ⟨db.items, db.responses,
    (computedAccuracies db userId now).foldl (fun p r =>
      p.map (fun tp =>
        if tp.userId == userId && tp.topic == r.1 then
          ⟨tp.userId, tp.topic, tp.totalAttempts, tp.correctAttempts, r.2, now⟩
        else tp)) db.perf⟩

/-- User 1 answered item 1 (topic A) correctly and item 2 (topic B)
incorrectly, both inside the window; both topics hold a stale
topic_performance row (accuracy 50, recalculated long ago). -/
def exPerfDB : PerfDB :=
  ⟨[⟨1, ItemType.flashcard, ["A"]⟩, ⟨2, ItemType.flashcard, ["B"]⟩],
    [⟨1, 1, ItemType.flashcard, true, 0⟩, ⟨1, 2, ItemType.flashcard, false, 0⟩],
    [⟨1, "A", 3, 1, 50, -100⟩, ⟨1, "B", 3, 1, 50, -100⟩]⟩

/-- C8 (code bug): recalculation restricted to the subset {A} still
rewrites topic B's row (accuracy 50 to 0, last_calculated to now): the
subset argument never reaches the query, so rows outside the subset do not
remain unchanged. -/
theorem recalculate_updates_outside_subset :
    (recalculateRollingAccuracy exPerfDB 1 (some ["A"]) 1).perf
      = [⟨1, "A", 3, 1, 100, 1⟩, ⟨1, "B", 3, 1, 0, 1⟩] ∧
    (recalculateRollingAccuracy exPerfDB 1 (some ["A"]) 1).perf.filter
        (fun tp => tp.topic == "B")
      ≠ exPerfDB.perf.filter (fun tp => tp.topic == "B") := by
  have hab : ("A" == "B") = false := by decide
  have hba : ("B" == "A") = false := by decide
  have hab' : ¬ ("A" = "B") := by decide
  have hba' : ¬ ("B" = "A") := by decide
  have h : (recalculateRollingAccuracy exPerfDB 1 (some ["A"]) 1).perf
      = [⟨1, "A", 3, 1, 100, 1⟩, ⟨1, "B", 3, 1, 0, 1⟩] := by
    simp only [recalculateRollingAccuracy, computedAccuracies,
      windowObservations, topicsOf, distinctKeys, exPerfDB]
    norm_num [List.filter, List.find?, List.foldl, hab, hba, hab', hba']
  refine ⟨h, ?_⟩
  rw [h]
  simp only [exPerfDB, List.filter, ne_eq, hab, hba]
  norm_num

end StudyScheduler
